import Mathlib

/-!
Shallow embedding of the ThermoPro TP920 sensor integration
(src/thermopro_tp920/sensor.py).

Modelling conventions:
- Python byte strings are `List Nat` (each entry a byte value 0..255).
- Python float arithmetic on the decoded temperatures is modelled with
  exact rationals.  On every reachable input (substrings drawn from the
  lowercase hex alphabet) the quantity `fahrenheit * 10` is never a
  half-integer, so the rounding mode (Python banker rounding versus
  round-half-up) cannot matter, and the double rounding error of binary
  floats is far below the distance to the nearest tie.
- Time is not modelled; `asyncio.sleep` calls become `Event.sleep ms`
  trace events (milliseconds).
- One BLE attempt is a function from a `SessionEnv` (which transport
  operations succeed, which notification payloads arrive during the
  wait) to a result plus a trace of transport events.
-/

namespace TP920

/-- Value of a single lowercase/uppercase hex digit, as used by
Python bytes.fromhex. -/
def hexVal? (c : Char) : Option Nat :=
  if '0' ≤ c ∧ c ≤ '9' then some (c.toNat - 48)
  else if 'a' ≤ c ∧ c ≤ 'f' then some (c.toNat - 87)
  else if 'A' ≤ c ∧ c ≤ 'F' then some (c.toNat - 55)
  else none

/-- Pairs of hex digits to bytes, as in Python bytes.fromhex (the
constants in the source contain no spaces, so spaces are not handled). -/
def hexPairs? : List Char → Option (List Nat)
  | [] => some []
  | [_] => none
  | c1 :: c2 :: rest =>
    match hexVal? c1, hexVal? c2, hexPairs? rest with
    | some h, some l, some r => some ((16 * h + l) :: r)
    | _, _, _ => none

/-- Model of Python bytes.fromhex restricted to strings without spaces. -/
def bytesFromHex (s : String) : Option (List Nat) :=
  hexPairs? s.data

/-- Lowercase hex digit character for a value below 16. -/
def hexDigitChar (n : Nat) : Char :=
  if n < 10 then Char.ofNat (48 + n) else Char.ofNat (87 + n)

/-- Model of Python bytes.hex: two lowercase hex digits per byte. -/
def dataHex (l : List Nat) : String :=
  String.mk (l.flatMap fun b => [hexDigitChar (b / 16 % 16), hexDigitChar (b % 16)])

/-- Model of the Python slice s[a:b] (for a ≤ b), clamped at the end of
the string exactly as Python slicing is. -/
def pySlice (s : String) (a b : Nat) : String :=
  String.mk ((s.data.drop a).take (b - a))

/-- Value of a nonempty all-decimal-digit character list. -/
def digitsVal (cs : List Char) : Nat :=
  cs.foldl (fun a c => 10 * a + (c.toNat - 48)) 0

/-- Split of a character list at each occurrence of the letter e, the
exponent marker recognised by Python float. -/
def splitOnE : List Char → List (List Char)
  | [] => [[]]
  | c :: rest =>
    match splitOnE rest with
    | [] => []
    | g :: gs => if c = 'e' then [] :: g :: gs else (c :: g) :: gs

/-- Model of Python float(s), restricted to the strings reachable in
this program: substrings of a bytes.hex result, hence drawn from the
alphabet 0-9a-f.  Within that alphabet Python float accepts exactly a
nonempty digit run, optionally followed by the letter e and a nonempty
digit run (an exponent), and rejects everything else with ValueError.
The result is modelled exactly as a rational. -/
def pyFloat? (s : String) : Option ℚ :=
  match splitOnE s.data with
  | [m] =>
    if m ≠ [] ∧ m.all Char.isDigit then some (digitsVal m) else none
  | [m, ex] =>
    if m ≠ [] ∧ m.all Char.isDigit ∧ ex ≠ [] ∧ ex.all Char.isDigit
    then some ((digitsVal m : ℚ) * 10 ^ digitsVal ex) else none
  | _ => none

/-- Model of Python round(x, 1): multiply by ten, round to the nearest
integer, divide by ten.  Reachable inputs are never exact ties, so the
tie-breaking direction is irrelevant. -/
def round1 (q : ℚ) : ℚ :=
  ((round (q * 10) : ℤ) : ℚ) / 10

/-- Embedding of convert_to_fahrenheit from sensor.py.  The outer Option
is the exception channel: none models float() raising ValueError.  The
inner Option is the returned reading: none models Python None (the
sentinel "ffff"). -/
def convert_to_fahrenheit (probe_hex : String) : Option (Option ℚ) :=
  if probe_hex ≠ "ffff" then
    (pyFloat? probe_hex).map fun v => some (round1 (v / 10 * 9 / 5 + 32))
  else some none

/-- Decoding of one notification payload, lines 108-124 of sensor.py:
hex-encode the bytes, slice characters 14-18 and 22-26, convert each.
none models a ValueError escaping from convert_to_fahrenheit. -/
def decodePayload (data : List Nat) : Option (Option ℚ × Option ℚ) :=
  let hex_data := dataHex data
  match convert_to_fahrenheit (pySlice hex_data 14 18) with
  | none => none
  | some r1 =>
    match convert_to_fahrenheit (pySlice hex_data 22 26) with
    | none => none
    | some r2 => some (r1, r2)

/-- Write characteristic UUID from sensor.py. -/
def WRITE_CHAR_UUID : String := "1086fff1-3343-4817-8bb2-b32206336ce8"

/-- Notify characteristic UUID from sensor.py. -/
def NOTIFY_CHAR_UUID : String := "1086fff2-3343-4817-8bb2-b32206336ce8"

/-- Command that selects Fahrenheit display, from sensor.py. -/
def FAHRENHEIT_COMMAND : String := "20010f30"

/-- Retry bound from sensor.py. -/
def MAX_RETRIES : Nat := 3

/-- Delay in seconds between retries, from sensor.py. -/
def RETRY_DELAY : Nat := 2

/-- Embedding of HANDSHAKE_COMMANDS from sensor.py: the six priming
byte strings, each produced by bytes.fromhex of a fixed constant. -/
def HANDSHAKE_COMMANDS : List (List Nat) :=
  [ (bytesFromHex "01098a7a13b73ed68b67c2a0").getD [],
    (bytesFromHex "410041").getD [],
    (bytesFromHex "28040a2d8c6e5d").getD [],
    (bytesFromHex FAHRENHEIT_COMMAND).getD [],
    (bytesFromHex "23060200ffffffff27").getD [],
    (bytesFromHex "23060400ffffffff29").getD [] ]

/-- Transport-level events of one update cycle, in program order.
Sleep durations are milliseconds, so the 0.4 s inter-command delay is
sleep 400 and the RETRY_DELAY backoff is sleep 2000. -/
inductive Event where
  | acquireLock
  | releaseLock
  | connectAttempt
  | writeChar (uuid : String) (cmd : List Nat)
  | sleep (ms : Nat)
  | startNotify (uuid : String)
  | stopNotify (uuid : String)
  | disconnect
deriving DecidableEq, Repr

/-- Python exceptions that the update loop distinguishes. -/
inductive PyExc where
  | bleak (msg : String)
  | timeout
  | updateFailed (msg : String)
  | valueError (msg : String)
deriving DecidableEq, Repr

/-- Whether an exception is caught by the retry clause
except (BleakError, asyncio.TimeoutError) on line 126 of sensor.py. -/
def isTransport : PyExc → Bool
  | PyExc.bleak _ => true
  | PyExc.timeout => true
  | _ => false

/-- Model of Python str(e) for the exceptions above. -/
def pyExcStr : PyExc → String
  | PyExc.bleak m => m
  | PyExc.timeout => ""
  | PyExc.updateFailed m => m
  | PyExc.valueError m => m

/-- Model of the str of last_exception, which is initialised to None. -/
def lastExcStr : Option PyExc → String
  | none => "None"
  | some e => pyExcStr e

/-- Message of the final UpdateFailed raised on line 146 of sensor.py. -/
def failMsg (last : Option PyExc) : String :=
  "Failed to update after " ++ toString MAX_RETRIES ++ " attempts: " ++ lastExcStr last

/-- Result of one reading, the dict {1: ..., 2: ...} returned on
lines 121-124 of sensor.py: probe 1 value and probe 2 value. -/
abbrev Reading := Option ℚ × Option ℚ

/-- Embedding of notification_handler from sensor.py: the state is the
asyncio.Future (none = not done); set_result only fires when the future
is not yet done, so the first delivery wins. -/
def notification_handler (st : Option (List Nat)) (data : List Nat) : Option (List Nat) :=
  match st with
  | none => some data
  | some x => some x

/-- Environment of one attempt: which transport operations succeed and
which notification payloads are delivered during the 10 s wait. -/
structure SessionEnv where
  connectOk : Bool
  writeOk : Nat → Bool
  subscribeOk : Bool
  notifications : List (List Nat)
  errMsg : String

/-- Handshake write loop, lines 95-97 of sensor.py: write each command
then sleep 0.4 s; a rejected write raises BleakError out of the loop,
so later commands are not written and no sleep follows the failure. -/
def runWrites (writeOk : Nat → Bool) (idx : Nat) : List (List Nat) → Bool × List Event
  | [] => (true, [])
  | c :: rest =>
    if writeOk idx then
      let r := runWrites writeOk (idx + 1) rest
      (r.1, Event.writeChar WRITE_CHAR_UUID c :: Event.sleep 400 :: r.2)
    else (false, [Event.writeChar WRITE_CHAR_UUID c])

/-- Body of one attempt while connected, lines 88-124 of sensor.py:
handshake writes, start_notify, the 10 s wait for the future (with
stop_notify in a finally), then decode and return.  A wait timeout is
re-raised as UpdateFailed on line 104; a decode failure is a ValueError
escaping the attempt. -/
def connectedBody (env : SessionEnv) : Except PyExc Reading × List Event :=
  let w := runWrites env.writeOk 0 HANDSHAKE_COMMANDS
  if w.1 then
    if env.subscribeOk then
      let tr := w.2 ++ [Event.startNotify NOTIFY_CHAR_UUID, Event.stopNotify NOTIFY_CHAR_UUID]
      match env.notifications.foldl notification_handler none with
      | none => (Except.error (PyExc.updateFailed "Did not receive a notification in time"), tr)
      | some data =>
        match decodePayload data with
        | some r => (Except.ok r, tr)
        | none => (Except.error (PyExc.valueError "could not convert string to float"), tr)
    else (Except.error (PyExc.bleak env.errMsg), w.2 ++ [Event.startNotify NOTIFY_CHAR_UUID])
  else (Except.error (PyExc.bleak env.errMsg), w.2)

/-- One attempt inside the BleakClient context manager (lines 87-124):
a failed connect raises BleakError; on the connected path the context
manager guarantees a disconnect on every exit. -/
def sessionBody (env : SessionEnv) : Except PyExc Reading × List Event :=
  if env.connectOk then
    ((connectedBody env).1, Event.connectAttempt :: (connectedBody env).2 ++ [Event.disconnect])
  else (Except.error (PyExc.bleak "Failed to connect."), [Event.connectAttempt])

/-- One full attempt, lines 78-124: the async with self.ble_lock block
wraps the whole attempt, so the lock is acquired first and released
last on every exit path. -/
def runSession (env : SessionEnv) : Except PyExc Reading × List Event :=
  ((sessionBody env).1, Event.acquireLock :: (sessionBody env).2 ++ [Event.releaseLock])

/-- Retry loop of _async_update_data, lines 76-146, recursing on the
number of remaining iterations of for attempt in range(MAX_RETRIES).
idx is the current value of attempt.  A transport failure sleeps
RETRY_DELAY (only when attempt < MAX_RETRIES - 1) and retries; any
other exception breaks to the final raise; falling off the loop also
reaches the final raise of UpdateFailed. -/
def runCycleGo (envs : Nat → SessionEnv) : List Nat → Option PyExc → Except String Reading × List Event
  | [], last => (Except.error (failMsg last), [])
  | idx :: rest, _last =>
    let s := runSession (envs idx)
    match s.1 with
    | Except.ok reading => (Except.ok reading, s.2)
    | Except.error e =>
      if isTransport e then
        let r := runCycleGo envs rest (some e)
        if rest ≠ [] then (r.1, s.2 ++ Event.sleep (RETRY_DELAY * 1000) :: r.2)
        else (r.1, s.2 ++ r.2)
      else (Except.error (failMsg (some e)), s.2)

/-- One scheduled update cycle: the for loop over range(MAX_RETRIES),
attempt i running in environment envs i. -/
def runCycle (envs : Nat → SessionEnv) : Except String Reading × List Event :=
  runCycleGo envs (List.range MAX_RETRIES) none

/-- Model of dict.get on the returned reading. -/
def dataGet (d : Reading) (probe : Nat) : Option ℚ :=
  if probe = 1 then d.1 else if probe = 2 then d.2 else none

/-- Embedding of ThermoProTP920ProbeSensor.native_value: the probe value
from the last coordinator data, if any. -/
def native_value (data : Option Reading) (probe : Nat) : Option ℚ :=
  match data with
  | some d => dataGet d probe
  | none => none

/-- Embedding of ThermoProTP920ProbeSensor.available, lines 176-183:
the entity is available when the parent class reports available, the
coordinator holds data, and this probe has a non-None value. -/
def available (superAvail : Bool) (data : Option Reading) (probe : Nat) : Bool :=
  superAvail && data.isSome && (native_value data probe).isSome

/-- Interpretation of a probe substring as a hexadecimal integer, the
hexToInt reading stated by the spec; compared against the code-side
convert_to_fahrenheit, which uses Python float, a base-10 parse. -/
def spec_hexToInt (s : String) : Nat :=
  s.data.foldl (fun a c => 16 * a + (hexVal? c).getD 0) 0

/-- Fahrenheit value the spec sentence predicts for a probe substring
under the hexToInt reading. -/
def spec_hexFahrenheit (s : String) : ℚ :=
  round1 ((spec_hexToInt s : ℚ) / 10 * 9 / 5 + 32)

/-- A 13-byte payload whose probe-1 substring is the digits 0320 and
whose probe-2 substring is the sentinel ffff. -/
def payload0320ffff : List Nat :=
  [0, 0, 0, 0, 0, 0, 0, 0x03, 0x20, 0, 0, 0xff, 0xff]

/-- A 13-byte payload whose probe-1 substring is the digits 0320 and
whose probe-2 substring is the digits 0100. -/
def payload03200100 : List Nat :=
  [0, 0, 0, 0, 0, 0, 0, 0x03, 0x20, 0, 0, 0x01, 0x00]

/-- A 13-byte payload whose probe-1 substring is the sentinel ffff and
whose probe-2 substring is the digits 0320. -/
def payloadffff0320 : List Nat :=
  [0, 0, 0, 0, 0, 0, 0, 0xff, 0xff, 0, 0, 0x03, 0x20]

/-- A 12-byte payload, whose 24-character hex form is shorter than the
26 characters the frame layout assumes, with digit substrings. -/
def payloadShort : List Nat :=
  [0, 0, 0, 0, 0, 0, 0, 0x12, 0x34, 0, 0, 0x12]

/-- A 13-byte payload whose probe-1 substring abcd is rejected by
Python float with a ValueError. -/
def payloadBadDigits : List Nat :=
  [0, 0, 0, 0, 0, 0, 0, 0xab, 0xcd, 0, 0, 0x03, 0x20]

/-- An 11-byte payload, whose 22-character hex form leaves the probe-2
slice empty. -/
def payloadEmptySlice : List Nat :=
  [0, 0, 0, 0, 0, 0, 0, 0, 0, 0, 0]

/-- Environment in which the transport is healthy but the device sends
no notification during the 10 s wait. -/
def silentEnv : SessionEnv :=
  ⟨true, fun _ => true, true, [], ""⟩

/-- Environment delivering payload0320ffff. -/
def mixedEnv : SessionEnv :=
  ⟨true, fun _ => true, true, [payload0320ffff], ""⟩

/-- Environment delivering the short frame payloadShort. -/
def shortFrameEnv : SessionEnv :=
  ⟨true, fun _ => true, true, [payloadShort], ""⟩

/-- Environment delivering payloadBadDigits. -/
def badDigitsEnv : SessionEnv :=
  ⟨true, fun _ => true, true, [payloadBadDigits], ""⟩

/-- Environment delivering payloadEmptySlice. -/
def emptySliceEnv : SessionEnv :=
  ⟨true, fun _ => true, true, [payloadEmptySlice], ""⟩

/-- Environment in which every connection attempt fails. -/
def noConnectEnv : SessionEnv :=
  ⟨false, fun _ => true, true, [], ""⟩

/-! Helper lemmas about the embedded operations. -/

/-- Every event emitted by the handshake write loop is a write to the
write characteristic or the fixed 0.4 s sleep. -/
theorem runWrites_mem (ok : Nat → Bool) (e : Event) :
    ∀ (cmds : List (List Nat)) (i : Nat), e ∈ (runWrites ok i cmds).2 →
      (∃ c, e = Event.writeChar WRITE_CHAR_UUID c) ∨ e = Event.sleep 400 := by
  intro cmds
  induction cmds with
  | nil => intro i h; simp [runWrites] at h
  | cons c rest ih =>
    intro i h
    by_cases hok : ok i
    · simp only [runWrites, hok, if_true, List.mem_cons] at h
      rcases h with h | h | h
      · exact Or.inl ⟨c, h⟩
      · exact Or.inr h
      · exact ih (i + 1) h
    · simp only [runWrites, hok, if_false, Bool.false_eq_true, List.mem_singleton] at h
      exact Or.inl ⟨c, h⟩

/-- When every write is accepted, the write loop succeeds and emits the
commands in order, each followed by the 0.4 s sleep. -/
theorem runWrites_all_ok (ok : Nat → Bool) (hok : ∀ j, ok j = true) :
    ∀ (cmds : List (List Nat)) (i : Nat),
      runWrites ok i cmds =
        (true, cmds.flatMap fun c => [Event.writeChar WRITE_CHAR_UUID c, Event.sleep 400]) := by
  intro cmds
  induction cmds with
  | nil => intro i; simp [runWrites]
  | cons c rest ih => intro i; simp [runWrites, hok i, ih (i + 1)]

/-- Events other than writes and the 0.4 s sleep never occur in the
write loop trace. -/
theorem runWrites_not_mem (ok : Nat → Bool) (e : Event)
    (hW : ∀ c, e ≠ Event.writeChar WRITE_CHAR_UUID c) (h4 : e ≠ Event.sleep 400) :
    ∀ (cmds : List (List Nat)) (i : Nat), e ∉ (runWrites ok i cmds).2 := by
  intro cmds
  induction cmds with
  | nil => intro i; simp [runWrites]
  | cons c rest ih =>
    intro i
    by_cases hok : ok i
    · simp only [runWrites, hok, if_true, List.mem_cons]
      push_neg
      exact ⟨hW c, h4, ih (i + 1)⟩
    · simp only [runWrites, hok, Bool.false_eq_true, if_false, List.mem_singleton]
      exact hW c

/-- Events other than writes, the 0.4 s sleep and the notify calls never
occur in the connected body trace. -/
theorem connectedBody_not_mem (env : SessionEnv) (e : Event)
    (hW : ∀ c, e ≠ Event.writeChar WRITE_CHAR_UUID c) (h4 : e ≠ Event.sleep 400)
    (hS : e ≠ Event.startNotify NOTIFY_CHAR_UUID) (hT : e ≠ Event.stopNotify NOTIFY_CHAR_UUID) :
    e ∉ (connectedBody env).2 := by
  have hw := runWrites_not_mem env.writeOk e hW h4 HANDSHAKE_COMMANDS 0
  simp only [connectedBody]
  repeat' split
  all_goals simp [List.mem_append, hw, hS, hT]

/-- Events other than the in-attempt transport operations never occur
in the attempt body trace; in particular the lock events do not. -/
theorem sessionBody_not_mem (env : SessionEnv) (e : Event)
    (hC : e ≠ Event.connectAttempt)
    (hW : ∀ c, e ≠ Event.writeChar WRITE_CHAR_UUID c) (h4 : e ≠ Event.sleep 400)
    (hS : e ≠ Event.startNotify NOTIFY_CHAR_UUID) (hT : e ≠ Event.stopNotify NOTIFY_CHAR_UUID)
    (hD : e ≠ Event.disconnect) :
    e ∉ (sessionBody env).2 := by
  have hc := connectedBody_not_mem env e hW h4 hS hT
  simp only [sessionBody]
  split
  all_goals simp [List.mem_append, List.mem_cons, hc, hC, hD]

/-- The lock events do not occur inside the attempt body, and neither
does the retry backoff sleep. -/
theorem sessionBody_no_lock (env : SessionEnv) :
    Event.acquireLock ∉ (sessionBody env).2 ∧ Event.releaseLock ∉ (sessionBody env).2 ∧
      Event.sleep (RETRY_DELAY * 1000) ∉ (sessionBody env).2 := by
  refine ⟨?_, ?_, ?_⟩ <;>
    apply sessionBody_not_mem <;> intros <;> simp [RETRY_DELAY]

/-- Counts of the lock events and of the retry backoff sleep over one
attempt trace: the lock is taken and released exactly once, and the
backoff sleep never occurs inside an attempt. -/
theorem runSession_counts (env : SessionEnv) :
    (runSession env).2.count Event.acquireLock = 1 ∧
      (runSession env).2.count Event.releaseLock = 1 ∧
      (runSession env).2.count (Event.sleep (RETRY_DELAY * 1000)) = 0 := by
  obtain ⟨h1, h2, h3⟩ := sessionBody_no_lock env
  refine ⟨?_, ?_, ?_⟩ <;>
    simp [runSession, List.count_cons, List.count_append, List.count_eq_zero.mpr,
      h1, h2, h3, List.count_eq_zero]

/-- A settled notification future is never overwritten by a later
delivery. -/
theorem foldl_handler_settled (l : List (List Nat)) :
    ∀ x, l.foldl notification_handler (some x) = some x := by
  induction l with
  | nil => intro x; rfl
  | cons d rest ih => intro x; simpa [notification_handler] using ih x

/-- A nonempty run of decimal digits contains no letter e, so the
exponent split leaves it whole. -/
theorem splitOnE_digits : ∀ cs : List Char, cs.all Char.isDigit = true → splitOnE cs = [cs] := by
  intro cs
  induction cs with
  | nil => intro; rfl
  | cons c rest ih =>
    intro h
    rw [List.all_cons, Bool.and_eq_true] at h
    have hce : ¬ c = 'e' := by
      intro hc; subst hc; simp at h
    simp [splitOnE, ih h.2, hce]

/-- A nonempty all-digit substring is parsed by float as a base-10
integer and converted with the celsius-to-fahrenheit formula. -/
theorem convert_to_fahrenheit_digits (s : String) (hne : s.data ≠ [])
    (hdig : s.data.all Char.isDigit = true) :
    convert_to_fahrenheit s =
      some (some (round1 ((digitsVal s.data : ℚ) / 10 * 9 / 5 + 32))) := by
  have hsff : s ≠ "ffff" := by
    intro h
    subst h
    simp [List.all_cons] at hdig
  rw [convert_to_fahrenheit, if_pos hsff, pyFloat?, splitOnE_digits s.data hdig]
  simp [hne, hdig]

/-- Evaluation rule for round1 at a concrete rational: the integer z
within a half below and strictly above q * 10 is the rounded value. -/
theorem round1_spec (q : ℚ) (z : ℤ) (hlo : (z : ℚ) ≤ q * 10 + 1 / 2)
    (hhi : q * 10 + 1 / 2 < z + 1) : round1 q = (z : ℚ) / 10 := by
  rw [round1, round_eq, Int.floor_eq_iff.mpr ⟨hlo, hhi⟩]

/-- Evaluation rule for convert_to_fahrenheit at a concrete all-digit
substring with value n and rounded Fahrenheit value v = z / 10. -/
theorem convert_digits_eval (s : String) (n : Nat) (z : ℤ) (v : ℚ)
    (hne : s.data ≠ []) (hdig : s.data.all Char.isDigit = true)
    (hval : digitsVal s.data = n)
    (hlo : (z : ℚ) ≤ ((n : ℚ) / 10 * 9 / 5 + 32) * 10 + 1 / 2)
    (hhi : ((n : ℚ) / 10 * 9 / 5 + 32) * 10 + 1 / 2 < z + 1)
    (hv : (z : ℚ) / 10 = v) :
    convert_to_fahrenheit s = some (some v) := by
  rw [convert_to_fahrenheit_digits s hne hdig, hval,
    round1_spec ((n : ℚ) / 10 * 9 / 5 + 32) z hlo hhi, hv]

/-- An attempt whose first failure is outside the transport category
breaks the retry loop: the final UpdateFailed is raised at once, and the
cycle trace is exactly the first attempt trace. -/
theorem runCycle_nontransport (envs : Nat → SessionEnv) (e : PyExc)
    (he : (runSession (envs 0)).1 = Except.error e) (ht : isTransport e = false) :
    (runCycle envs).1 = Except.error (failMsg (some e)) ∧
      (runCycle envs).2 = (runSession (envs 0)).2 := by
  have hr : List.range MAX_RETRIES = [0, 1, 2] := rfl
  rw [runCycle, hr]
  simp only [runCycleGo, he, ht, Bool.false_eq_true, if_false]
  constructor <;> first | rfl | trivial

/-! Claim theorems. -/

/-- C1 (counterexample): the claim reads the probe substring as
hexadecimal, so that 0320 means 800 tenths of a degree, 80.0 degrees C
and 176.0 degrees F; but the code decodes the payload carrying 0320 to
89.6 degrees F, because Python float parses base-10. -/
theorem c1_hex_claim_false :
    spec_hexToInt "0320" = 800 ∧ spec_hexFahrenheit "0320" = 176 ∧
    pySlice (dataHex payload0320ffff) 14 18 = "0320" ∧
    decodePayload payload0320ffff = some (some ((448 : ℚ) / 5), none) ∧
    (448 : ℚ) / 5 ≠ 176 := by
  have hs1 : pySlice (dataHex payload0320ffff) 14 18 = "0320" := by decide
  have hs2 : pySlice (dataHex payload0320ffff) 22 26 = "ffff" := by decide
  have hcff : convert_to_fahrenheit "ffff" = some none := by decide
  have hc1 : convert_to_fahrenheit "0320" = some (some ((448 : ℚ) / 5)) :=
    convert_digits_eval "0320" 320 896 _ (by decide) (by decide) (by decide)
      (by norm_num) (by norm_num) (by norm_num)
  refine ⟨by decide, ?_, hs1, ?_, by norm_num⟩
  · rw [spec_hexFahrenheit, show spec_hexToInt "0320" = 800 from by decide,
      round1_spec _ 1760 (by norm_num) (by norm_num)]
    norm_num
  · simp only [decodePayload, hs1, hs2, hc1, hcff]

/-- C1 (amended): for every payload that decodes successfully, each
probe substring (characters 14-18 for probe 1, 22-26 for probe 2) that
is a nonempty digit string yields the value
round((base10(sub)/10) * 9/5 + 32, 1): the substring is interpreted in
base 10, so 0320 is 320 tenths, 32.0 degrees C, yielding 89.6 F. -/
theorem c1_base10_decoding_both (data : List Nat) (r1 r2 : Option ℚ)
    (hdec : decodePayload data = some (r1, r2)) :
    ((pySlice (dataHex data) 14 18).data ≠ [] →
      (pySlice (dataHex data) 14 18).data.all Char.isDigit = true →
      r1 = some (round1
        ((digitsVal (pySlice (dataHex data) 14 18).data : ℚ) / 10 * 9 / 5 + 32))) ∧
    ((pySlice (dataHex data) 22 26).data ≠ [] →
      (pySlice (dataHex data) 22 26).data.all Char.isDigit = true →
      r2 = some (round1
        ((digitsVal (pySlice (dataHex data) 22 26).data : ℚ) / 10 * 9 / 5 + 32))) := by
  constructor
  · intro hne hdig
    simp only [decodePayload, convert_to_fahrenheit_digits _ hne hdig] at hdec
    rcases h2 : convert_to_fahrenheit (pySlice (dataHex data) 22 26) with _ | r2'
    · rw [h2] at hdec
      simp at hdec
    · rw [h2] at hdec
      simp only [Option.some.injEq, Prod.mk.injEq] at hdec
      exact hdec.1.symm
  · intro hne hdig
    simp only [decodePayload, convert_to_fahrenheit_digits _ hne hdig] at hdec
    rcases h1 : convert_to_fahrenheit (pySlice (dataHex data) 14 18) with _ | r1'
    · rw [h1] at hdec
      simp at hdec
    · rw [h1] at hdec
      simp only [Option.some.injEq, Prod.mk.injEq] at hdec
      exact hdec.2.symm

/-- C1 (amended, witness): the payload whose probe substrings are 0320
and 0100 decodes probe 1 to 89.6 F and probe 2 to 50.0 F by the
base-10 formula. -/
theorem c1_base10_decoding_both_witness :
    decodePayload payload03200100 = some (some ((448 : ℚ) / 5), some (50 : ℚ)) ∧
    some ((448 : ℚ) / 5) =
      some (round1 ((digitsVal (pySlice (dataHex payload03200100) 14 18).data : ℚ)
        / 10 * 9 / 5 + 32)) ∧
    some ((50 : ℚ)) =
      some (round1 ((digitsVal (pySlice (dataHex payload03200100) 22 26).data : ℚ)
        / 10 * 9 / 5 + 32)) := by
  have hs1 : pySlice (dataHex payload03200100) 14 18 = "0320" := by decide
  have hs2 : pySlice (dataHex payload03200100) 22 26 = "0100" := by decide
  have hc1 : convert_to_fahrenheit "0320" = some (some ((448 : ℚ) / 5)) :=
    convert_digits_eval "0320" 320 896 _ (by decide) (by decide) (by decide)
      (by norm_num) (by norm_num) (by norm_num)
  have hc2 : convert_to_fahrenheit "0100" = some (some (50 : ℚ)) :=
    convert_digits_eval "0100" 100 500 _ (by decide) (by decide) (by decide)
      (by norm_num) (by norm_num) (by norm_num)
  have hdec : decodePayload payload03200100 =
      some (some ((448 : ℚ) / 5), some (50 : ℚ)) := by
    simp only [decodePayload, hs1, hs2, hc1, hc2]
  have h := c1_base10_decoding_both payload03200100 _ _ hdec
  exact ⟨hdec, h.1 (by decide) (by decide), h.2 (by decide) (by decide)⟩

/-- C2: decoding treats the sentinel ffff as an absent probe reading,
and any other nonempty all-digit substring as a base-10 integer giving
tenths of a degree C, converted by F = C*9/5+32 and rounded to one
decimal place. -/
theorem c2_base10_decoding (s : String) :
    (s = "ffff" → convert_to_fahrenheit s = some none) ∧
    (s.data ≠ [] → s.data.all Char.isDigit = true →
      convert_to_fahrenheit s =
        some (some (round1 ((digitsVal s.data : ℚ) / 10 * 9 / 5 + 32)))) := by
  refine ⟨fun h => ?_, convert_to_fahrenheit_digits s⟩
  subst h
  decide

/-- C2 (witness): the sentinel yields an absent reading and the digit
substring 0320 yields 89.6 degrees F. -/
theorem c2_base10_decoding_witness :
    convert_to_fahrenheit "ffff" = some none ∧
    convert_to_fahrenheit "0320" = some (some ((448 : ℚ) / 5)) := by
  refine ⟨(c2_base10_decoding "ffff").1 rfl, ?_⟩
  rw [(c2_base10_decoding "0320").2 (by decide) (by decide),
    show digitsVal "0320".data = 320 from by decide,
    round1_spec _ 896 (by norm_num) (by norm_num)]
  norm_num

/-- C6: when a probe substring equals the sentinel ffff, that probe
decodes to None and its sensor entity reports unavailable, while the
availability of each probe depends only on its own value. -/
theorem c6_sentinel_unavailable (data : List Nat) (r1 r2 : Option ℚ)
    (hdec : decodePayload data = some (r1, r2)) :
    (pySlice (dataHex data) 14 18 = "ffff" →
      r1 = none ∧ available true (some (r1, r2)) 1 = false) ∧
    (pySlice (dataHex data) 22 26 = "ffff" →
      r2 = none ∧ available true (some (r1, r2)) 2 = false) ∧
    available true (some (r1, r2)) 1 = r1.isSome ∧
    available true (some (r1, r2)) 2 = r2.isSome := by
  have hcff : convert_to_fahrenheit "ffff" = some none := by decide
  refine ⟨fun hff => ?_, fun hff => ?_, ?_, ?_⟩
  · simp only [decodePayload, hff, hcff] at hdec
    rcases h2 : convert_to_fahrenheit (pySlice (dataHex data) 22 26) with _ | r2'
    · rw [h2] at hdec; simp at hdec
    · rw [h2] at hdec
      simp only [Option.some.injEq, Prod.mk.injEq] at hdec
      refine ⟨hdec.1.symm, ?_⟩
      rw [← hdec.1]
      simp [available, native_value, dataGet]
  · simp only [decodePayload, hff, hcff] at hdec
    rcases h1 : convert_to_fahrenheit (pySlice (dataHex data) 14 18) with _ | r1'
    · rw [h1] at hdec; simp at hdec
    · rw [h1] at hdec
      simp only [Option.some.injEq, Prod.mk.injEq] at hdec
      refine ⟨hdec.2.symm, ?_⟩
      rw [← hdec.2]
      simp [available, native_value, dataGet]
  · simp [available, native_value, dataGet]
  · simp [available, native_value, dataGet]

/-- C6 (witness): a payload with sentinel probe 1 and digit probe 2
gives an absent unavailable probe 1 and an available probe 2 at 89.6 F. -/
theorem c6_sentinel_unavailable_witness :
    decodePayload payloadffff0320 = some (none, some ((448 : ℚ) / 5)) ∧
    available true (some ((none : Option ℚ), some ((448 : ℚ) / 5))) 1 = false ∧
    available true (some ((none : Option ℚ), some ((448 : ℚ) / 5))) 2 = true := by
  have hs1 : pySlice (dataHex payloadffff0320) 14 18 = "ffff" := by decide
  have hs2 : pySlice (dataHex payloadffff0320) 22 26 = "0320" := by decide
  have hcff : convert_to_fahrenheit "ffff" = some none := by decide
  have hc1 : convert_to_fahrenheit "0320" = some (some ((448 : ℚ) / 5)) :=
    convert_digits_eval "0320" 320 896 _ (by decide) (by decide) (by decide)
      (by norm_num) (by norm_num) (by norm_num)
  have hdec : decodePayload payloadffff0320 = some (none, some ((448 : ℚ) / 5)) := by
    simp only [decodePayload, hs1, hs2, hc1, hcff]
  refine ⟨hdec, ((c6_sentinel_unavailable _ _ _ hdec).1 hs1).2, ?_⟩
  rw [(c6_sentinel_unavailable _ _ _ hdec).2.2.2]
  rfl

/-- C3 (code behavior): a notification timeout is re-raised inside the
attempt as UpdateFailed, which the retry clause does not match, so the
retry loop breaks after one attempt with no backoff sleep; the claim
and the spec instead call for a sleep and a further attempt. -/
theorem c3_notification_timeout_breaks_loop :
    (runSession silentEnv).1 =
      Except.error (PyExc.updateFailed "Did not receive a notification in time") ∧
    isTransport (PyExc.updateFailed "Did not receive a notification in time") = false ∧
    (runCycle fun _ => silentEnv).1 =
      Except.error (failMsg (some (PyExc.updateFailed "Did not receive a notification in time"))) ∧
    (runCycle fun _ => silentEnv).2.count Event.acquireLock = 1 ∧
    (runCycle fun _ => silentEnv).2.count (Event.sleep (RETRY_DELAY * 1000)) = 0 := by
  refine ⟨rfl, rfl, rfl, ?_, ?_⟩ <;> decide

/-- C4: when all three attempts fail with a transport-category error,
exactly MAX_RETRIES = 3 attempts run, exactly two RETRY_DELAY = 2 s
sleeps separate the consecutive attempts, and the cycle ends by raising
the aggregated UpdateFailed, never by returning a success value. -/
theorem c4_transport_retry_exhaustion (envs : Nat → SessionEnv)
    (h : ∀ i, i < MAX_RETRIES →
      ∃ e, (runSession (envs i)).1 = Except.error e ∧ isTransport e = true) :
    MAX_RETRIES = 3 ∧ RETRY_DELAY = 2 ∧
    (runCycle envs).2 =
      (runSession (envs 0)).2 ++ Event.sleep (RETRY_DELAY * 1000) ::
        ((runSession (envs 1)).2 ++ Event.sleep (RETRY_DELAY * 1000) :: (runSession (envs 2)).2) ∧
    (runCycle envs).2.count Event.acquireLock = 3 ∧
    (runCycle envs).2.count (Event.sleep (RETRY_DELAY * 1000)) = 2 ∧
    ∃ e, isTransport e = true ∧ (runCycle envs).1 = Except.error (failMsg (some e)) := by
  obtain ⟨e0, he0, ht0⟩ := h 0 (by decide)
  obtain ⟨e1, he1, ht1⟩ := h 1 (by decide)
  obtain ⟨e2, he2, ht2⟩ := h 2 (by decide)
  have hr : List.range MAX_RETRIES = [0, 1, 2] := rfl
  have hcy : runCycle envs =
      (Except.error (failMsg (some e2)),
        (runSession (envs 0)).2 ++ Event.sleep (RETRY_DELAY * 1000) ::
          ((runSession (envs 1)).2 ++
            Event.sleep (RETRY_DELAY * 1000) :: (runSession (envs 2)).2)) := by
    rw [runCycle, hr]
    simp only [runCycleGo, he0, ht0, he1, ht1, he2, ht2, if_true, List.append_nil]
    simp
  obtain ⟨ha0, -, hs0⟩ := runSession_counts (envs 0)
  obtain ⟨ha1, -, hs1⟩ := runSession_counts (envs 1)
  obtain ⟨ha2, -, hs2⟩ := runSession_counts (envs 2)
  refine ⟨rfl, rfl, by rw [hcy], ?_, ?_, ⟨e2, ht2, by rw [hcy]⟩⟩ <;>
    rw [hcy] <;>
    simp [List.count_append, List.count_cons, ha0, ha1, ha2, hs0, hs1, hs2]

/-- C4 (witness): with every connection attempt failing, three attempts
run, two backoff sleeps occur and the aggregated UpdateFailed reports
the last connect failure. -/
theorem c4_transport_retry_exhaustion_witness :
    (runCycle fun _ => noConnectEnv).2.count Event.acquireLock = 3 ∧
    (runCycle fun _ => noConnectEnv).2.count (Event.sleep (RETRY_DELAY * 1000)) = 2 ∧
    (runCycle fun _ => noConnectEnv).1 =
      Except.error (failMsg (some (PyExc.bleak "Failed to connect."))) := by
  have h := c4_transport_retry_exhaustion (fun _ => noConnectEnv)
    (fun i _ => ⟨PyExc.bleak "Failed to connect.", rfl, rfl⟩)
  exact ⟨h.2.2.2.1, h.2.2.2.2.1, rfl⟩

/-- C5: an attempt that fails with a decode ValueError is not retried:
the loop breaks at once, the cycle makes exactly one attempt with no
backoff sleep, and the failure is surfaced as the final UpdateFailed. -/
theorem c5_decode_error_fail_fast (envs : Nat → SessionEnv) (m : String)
    (h : (runSession (envs 0)).1 = Except.error (PyExc.valueError m)) :
    (runCycle envs).1 = Except.error (failMsg (some (PyExc.valueError m))) ∧
    (runCycle envs).2 = (runSession (envs 0)).2 ∧
    (runCycle envs).2.count Event.acquireLock = 1 ∧
    (runCycle envs).2.count (Event.sleep (RETRY_DELAY * 1000)) = 0 := by
  obtain ⟨h1, h2⟩ := runCycle_nontransport envs _ h rfl
  obtain ⟨ha, -, hs⟩ := runSession_counts (envs 0)
  exact ⟨h1, h2, by rw [h2, ha], by rw [h2, hs]⟩

/-- C5 (witness): a payload whose probe-1 substring is abcd raises a
ValueError on the first attempt and no second attempt is made. -/
theorem c5_decode_error_fail_fast_witness :
    (runSession badDigitsEnv).1 =
      Except.error (PyExc.valueError "could not convert string to float") ∧
    (runCycle fun _ => badDigitsEnv).1 =
      Except.error (failMsg (some (PyExc.valueError "could not convert string to float"))) ∧
    (runCycle fun _ => badDigitsEnv).2.count Event.acquireLock = 1 := by
  have h : (runSession badDigitsEnv).1 =
      Except.error (PyExc.valueError "could not convert string to float") := rfl
  obtain ⟨h1, -, h3, -⟩ := c5_decode_error_fail_fast (fun _ => badDigitsEnv) _ h
  exact ⟨h, h1, h3⟩

/-- C7: in a successful attempt the six fixed handshake byte strings
are written in exactly the given order, each write is followed by the
fixed 0.4 s sleep, and all writes precede the notification
subscription. -/
theorem c7_handshake_order (env : SessionEnv) (d : List Nat) (r : Reading)
    (hc : env.connectOk = true) (hw : ∀ i, env.writeOk i = true) (hs : env.subscribeOk = true)
    (hn : env.notifications.foldl notification_handler none = some d)
    (hd : decodePayload d = some r) :
    HANDSHAKE_COMMANDS =
      [[0x01, 0x09, 0x8a, 0x7a, 0x13, 0xb7, 0x3e, 0xd6, 0x8b, 0x67, 0xc2, 0xa0],
       [0x41, 0x00, 0x41],
       [0x28, 0x04, 0x0a, 0x2d, 0x8c, 0x6e, 0x5d],
       [0x20, 0x01, 0x0f, 0x30],
       [0x23, 0x06, 0x02, 0x00, 0xff, 0xff, 0xff, 0xff, 0x27],
       [0x23, 0x06, 0x04, 0x00, 0xff, 0xff, 0xff, 0xff, 0x29]] ∧
    (runSession env).1 = Except.ok r ∧
    (runSession env).2 =
      [Event.acquireLock, Event.connectAttempt] ++
        (HANDSHAKE_COMMANDS.flatMap fun c =>
          [Event.writeChar WRITE_CHAR_UUID c, Event.sleep 400]) ++
        [Event.startNotify NOTIFY_CHAR_UUID, Event.stopNotify NOTIFY_CHAR_UUID,
          Event.disconnect, Event.releaseLock] := by
  refine ⟨by decide, ?_, ?_⟩ <;>
    simp [runSession, sessionBody, connectedBody, hc, hs, hn, hd,
      runWrites_all_ok env.writeOk hw HANDSHAKE_COMMANDS 0]

/-- C7 (witness): the successful session on the payload carrying 0320
and ffff produces exactly the expected transport trace. -/
theorem c7_handshake_order_witness :
    (runSession mixedEnv).1 = Except.ok (some ((448 : ℚ) / 5), none) ∧
    (runSession mixedEnv).2 =
      [Event.acquireLock, Event.connectAttempt] ++
        (HANDSHAKE_COMMANDS.flatMap fun c =>
          [Event.writeChar WRITE_CHAR_UUID c, Event.sleep 400]) ++
        [Event.startNotify NOTIFY_CHAR_UUID, Event.stopNotify NOTIFY_CHAR_UUID,
          Event.disconnect, Event.releaseLock] := by
  have hs1 : pySlice (dataHex payload0320ffff) 14 18 = "0320" := by decide
  have hs2 : pySlice (dataHex payload0320ffff) 22 26 = "ffff" := by decide
  have hcff : convert_to_fahrenheit "ffff" = some none := by decide
  have hc1 : convert_to_fahrenheit "0320" = some (some ((448 : ℚ) / 5)) :=
    convert_digits_eval "0320" 320 896 _ (by decide) (by decide) (by decide)
      (by norm_num) (by norm_num) (by norm_num)
  have hdec : decodePayload payload0320ffff = some (some ((448 : ℚ) / 5), none) := by
    simp only [decodePayload, hs1, hs2, hc1, hcff]
  have h := c7_handshake_order mixedEnv payload0320ffff (some ((448 : ℚ) / 5), none)
    rfl (fun _ => rfl) rfl rfl hdec
  exact ⟨h.2.1, h.2.2⟩

/-- C8: the notification future is one-shot: the first delivered
payload settles it, and every later delivery in the same session leaves
the captured payload unchanged. -/
theorem c8_first_notification_wins :
    (∀ (x d : List Nat), notification_handler (some x) d = some x) ∧
    (∀ (first : List Nat) (later : List (List Nat)),
      List.foldl notification_handler none (first :: later) = some first) := by
  refine ⟨fun x d => rfl, fun first later => ?_⟩
  simpa [notification_handler] using foldl_handler_settled later first

/-- C9: in every attempt the per-device lock is acquired first and
released last, each exactly once, so every transport operation of the
attempt happens while the lock is held; with the mutual exclusion of
asyncio.Lock this serializes the BLE sessions of one address. -/
theorem c9_lock_spans_attempt (env : SessionEnv) :
    (runSession env).2.head? = some Event.acquireLock ∧
    (runSession env).2.getLast? = some Event.releaseLock ∧
    (runSession env).2.count Event.acquireLock = 1 ∧
    (runSession env).2.count Event.releaseLock = 1 := by
  obtain ⟨ha, hrel, -⟩ := runSession_counts env
  refine ⟨rfl, ?_, ha, hrel⟩
  show ((Event.acquireLock :: (sessionBody env).2) ++ [Event.releaseLock]).getLast? =
    some Event.releaseLock
  rw [List.getLast?_append_cons]
  rfl

/-- C10 (counterexample): a 12-byte frame, 24 hex characters, is
shorter than the assumed 26-character layout, its probe-2 substring is
the truncated digit pair 12 rather than ffff, and yet decoding does not
raise: the session returns a reading and the cycle reports success. -/
theorem c10_short_frame_counterexample :
    (dataHex payloadShort).length = 24 ∧
    decodePayload payloadShort = some (some ((2541 : ℚ) / 10), some ((171 : ℚ) / 5)) ∧
    (runSession shortFrameEnv).1 =
      Except.ok (some ((2541 : ℚ) / 10), some ((171 : ℚ) / 5)) ∧
    (runCycle fun _ => shortFrameEnv).1 =
      Except.ok (some ((2541 : ℚ) / 10), some ((171 : ℚ) / 5)) := by
  have hs1 : pySlice (dataHex payloadShort) 14 18 = "1234" := by decide
  have hs2 : pySlice (dataHex payloadShort) 22 26 = "12" := by decide
  have hc1 : convert_to_fahrenheit "1234" = some (some ((2541 : ℚ) / 10)) :=
    convert_digits_eval "1234" 1234 2541 _ (by decide) (by decide) (by decide)
      (by norm_num) (by norm_num) (by norm_num)
  have hc2 : convert_to_fahrenheit "12" = some (some ((171 : ℚ) / 5)) :=
    convert_digits_eval "12" 12 342 _ (by decide) (by decide) (by decide)
      (by norm_num) (by norm_num) (by norm_num)
  have hdec : decodePayload payloadShort =
      some (some ((2541 : ℚ) / 10), some ((171 : ℚ) / 5)) := by
    simp only [decodePayload, hs1, hs2, hc1, hc2]
  have hses : (runSession shortFrameEnv).1 =
      Except.ok (some ((2541 : ℚ) / 10), some ((171 : ℚ) / 5)) := by
    simp [runSession, sessionBody, connectedBody, shortFrameEnv, notification_handler,
      runWrites_all_ok (fun _ => true) (fun _ => rfl) HANDSHAKE_COMMANDS 0, hdec]
  refine ⟨by decide, hdec, hses, ?_⟩
  have hr : List.range MAX_RETRIES = [0, 1, 2] := rfl
  rw [runCycle, hr]
  simp only [runCycleGo, hses]

/-- C10 (amended): a frame of at most 22 hex characters leaves the
probe-2 slice empty, so decoding always raises a ValueError, a
non-transport error: the retry loop aborts after one attempt with no
backoff sleep and the cycle raises the final UpdateFailed; a 24-char
frame with digit substrings can instead decode, as the counterexample
shows. -/
theorem c10_truncated_frame_aborts (env : SessionEnv) (data : List Nat)
    (hc : env.connectOk = true) (hw : ∀ i, env.writeOk i = true)
    (hsub : env.subscribeOk = true)
    (hn : env.notifications.foldl notification_handler none = some data)
    (hlen : (dataHex data).length ≤ 22) :
    pySlice (dataHex data) 22 26 = "" ∧
    decodePayload data = none ∧
    (runSession env).1 = Except.error (PyExc.valueError "could not convert string to float") ∧
    (runCycle fun _ => env).1 =
      Except.error (failMsg (some (PyExc.valueError "could not convert string to float"))) ∧
    (runCycle fun _ => env).2.count Event.acquireLock = 1 ∧
    (runCycle fun _ => env).2.count (Event.sleep (RETRY_DELAY * 1000)) = 0 := by
  have hlen' : (dataHex data).data.length ≤ 22 := hlen
  have hsl : pySlice (dataHex data) 22 26 = "" := by
    rw [pySlice, List.drop_eq_nil_of_le hlen', List.take_nil]
  have hconv : convert_to_fahrenheit "" = none := rfl
  have hdec : decodePayload data = none := by
    rcases h1 : convert_to_fahrenheit (pySlice (dataHex data) 14 18) with _ | r1 <;>
      simp only [decodePayload, hsl, hconv, h1]
  have hses : (runSession env).1 =
      Except.error (PyExc.valueError "could not convert string to float") := by
    simp [runSession, sessionBody, connectedBody, hc, hsub, hn, hdec,
      runWrites_all_ok env.writeOk hw HANDSHAKE_COMMANDS 0]
  obtain ⟨h1, h2⟩ := runCycle_nontransport (fun _ => env) _ hses rfl
  obtain ⟨ha, -, hsc⟩ := runSession_counts env
  exact ⟨hsl, hdec, hses, h1, by rw [h2]; exact ha, by rw [h2]; exact hsc⟩

/-- C10 (amended, witness): an 11-byte frame of 22 hex characters makes
the first attempt raise a ValueError and the cycle abort at once. -/
theorem c10_truncated_frame_aborts_witness :
    pySlice (dataHex payloadEmptySlice) 22 26 = "" ∧
    decodePayload payloadEmptySlice = none ∧
    (runCycle fun _ => emptySliceEnv).1 =
      Except.error (failMsg (some (PyExc.valueError "could not convert string to float"))) ∧
    (runCycle fun _ => emptySliceEnv).2.count Event.acquireLock = 1 := by
  have h := c10_truncated_frame_aborts emptySliceEnv payloadEmptySlice rfl (fun _ => rfl)
    rfl rfl (by decide)
  exact ⟨h.1, h.2.1, h.2.2.2.1, h.2.2.2.2.1⟩

end TP920
